import Mathlib

/-!
Shallow embedding of
`tfx/components/infra_validator/model_server_runners/kubernetes_runner.py`:
the `KubernetesRunner` lifecycle controller (Start, WaitUntilRunning,
GetEndpoint, Stop, _BuildPodManifest), together with theorems checking the
natural-language specification against it.

External collaborators (the kubernetes API, the serving binary, the executor
pod) are modelled as explicit inputs: the kubernetes read/delete calls become
functions from the attempt index to the observed response, so a theorem can
quantify over every behaviour of the orchestrator.
-/

namespace KubernetesRunner

/-- `_DEFAULT_POLLING_INTERVAL_SEC = 5` (kubernetes_runner.py line 36). -/
def _DEFAULT_POLLING_INTERVAL_SEC : Nat := 5

/-- `_DEFAULT_ACTIVE_DEADLINE_SEC = int(datetime.timedelta(hours=24).total_seconds())`
(kubernetes_runner.py line 37): 24 hours in seconds. -/
def _DEFAULT_ACTIVE_DEADLINE_SEC : Int := 24 * 60 * 60

/-- `_POD_PHASE_RUNNING` (line 47). -/
def _POD_PHASE_RUNNING : String := "Running"

/-- `_POD_PHASE_SUCCEEDED` (line 48). -/
def _POD_PHASE_SUCCEEDED : String := "Succeeded"

/-- `_POD_PHASE_FAILED` (line 49). -/
def _POD_PHASE_FAILED : String := "Failed"

/-- `_POD_CONTAINER_RESTART_POLICY_NEVER` (line 53). -/
def _POD_CONTAINER_RESTART_POLICY_NEVER : String := "Never"

/-- One `read_namespaced_pod` call, as observed by the polling loop of
`WaitUntilRunning` (lines 121-128): either the call raises
`rest.ApiException`, or it returns a pod status carrying `status.phase` and
`status.pod_ip`.  A missing/empty `pod_ip` (falsy in Python) is modelled as
the empty string. -/
inductive PollResult
  | apiError
  | ok (phase : String) (pod_ip : String)
deriving DecidableEq, Repr

/-- Outcome of the polling loop of `WaitUntilRunning` (lines 120-146):
normal return with the resolved endpoint, `error_types.JobAborted`, or
`error_types.DeadlineExceeded`.  No other exit exists in the source: any
`rest.ApiException` from the read is caught and the loop continues. -/
inductive WaitResult
  | success (endpoint : String)
  | jobAborted (phase : String)
  | deadlineExceeded
deriving DecidableEq, Repr

/-- One iteration step plus recursion for the `while time.time() < deadline`
loop of `WaitUntilRunning` (lines 120-146), with an explicit structural
`fuel` so the function kernel-reduces.  `fuel` only bounds the recursion
depth; the loop is still controlled by `t < deadline`.  Each iteration
advances `t` by `_DEFAULT_POLLING_INTERVAL_SEC ≥ 1` and consumes one unit of
fuel, so starting from `fuel = deadline - t` keeps the invariant
`deadline ≤ t` whenever `fuel = 0`: the `fuel = 0` branch coincides with the
loop's own exit and never masks an iteration the source would perform.
`q k` is the observed result of `read_namespaced_pod` call number `k`
(0-based); the second component of the result counts the calls made from
query index `n` on. -/
def waitAux (q : Nat → PollResult) (container_port : Nat) (deadline : Nat) :
    Nat → Nat → Nat → WaitResult × Nat
  | 0, _, _ => (.deadlineExceeded, 0)
  | fuel + 1, t, n =>
    if t < deadline then
      match q n with
      | .apiError =>
          -- `except rest.ApiException`: log, sleep, continue (lines 125-128)
          let p := waitAux q container_port deadline fuel
            (t + _DEFAULT_POLLING_INTERVAL_SEC) (n + 1)
          (p.1, p.2 + 1)
      | .ok phase pod_ip =>
          if phase = _POD_PHASE_RUNNING ∧ pod_ip ≠ "" then
            -- lines 135-138
            (.success (pod_ip ++ ":" ++ toString container_port), 1)
          else if phase = _POD_PHASE_SUCCEEDED ∨ phase = _POD_PHASE_FAILED then
            -- lines 139-141
            (.jobAborted phase, 1)
          else
            -- lines 142-143: log, sleep, continue
            let p := waitAux q container_port deadline fuel
              (t + _DEFAULT_POLLING_INTERVAL_SEC) (n + 1)
            (p.1, p.2 + 1)
    else
      -- lines 145-146
      (.deadlineExceeded, 0)

/-- The polling loop of `WaitUntilRunning` (lines 120-146), started at
wall-clock time `t` with query index `n`.  The fuel `deadline - t` is enough
for every iteration the `while time.time() < deadline` loop performs (see
`waitAux`). -/
def waitLoop (q : Nat → PollResult) (container_port : Nat)
    (deadline t n : Nat) : WaitResult × Nat :=
  waitAux q container_port deadline (deadline - t) t n

/-- A poll result on which the loop body of `WaitUntilRunning` neither
returns nor raises: an API error, or a pod whose phase/ip hits none of the
two decision branches (lines 135-141). -/
def continues (r : PollResult) : Bool :=
  match r with
  | .apiError => true
  | .ok phase pod_ip =>
      decide (¬(phase = _POD_PHASE_RUNNING ∧ pod_ip ≠ "") ∧
              ¬(phase = _POD_PHASE_SUCCEEDED ∨ phase = _POD_PHASE_FAILED))

/-- The mutable fields of a `KubernetesRunner` (fields `self._pod_name` and
`self._endpoint`, lines 87-90): both are `None` at construction, populated
by `Start` and `WaitUntilRunning` respectively. -/
structure RunnerState where
  _pod_name : Option String
  _endpoint : Option String
deriving DecidableEq, Repr

/-- Runner state right after `__init__` (lines 88-90). -/
def initState : RunnerState := { _pod_name := none, _endpoint := none }

/-- Failure of `GetEndpoint` (lines 97-101): the `assert` that
`self._endpoint is not None` ("not ready"). -/
inductive EndpointError
  | notReady
deriving DecidableEq, Repr

/-- `GetEndpoint` (lines 97-101): asserts the endpoint has been resolved,
then returns it. -/
def GetEndpoint (s : RunnerState) : Except EndpointError String :=
  match s._endpoint with
  | none => .error .notReady
  | some e => .ok e

/-- The serving binary collaborator (an external `serving_bins.ServingBinary`;
only the members `kubernetes_runner.py` reads).  `kind` is the Python class
name checked by `isinstance` in `_BuildPodManifest` (line 175); `env_vars` is
the result of `MakeEnvVars(model_path)` for the bound model path. -/
structure ServingBinary where
  kind : String
  image : String
  container_port : Nat
  env_vars : List (String × String)
deriving DecidableEq, Repr

/-- The `serving_spec.kubernetes` config (`self._config`): the two fields the
runner reads.  Proto3 scalar defaults: a string left unset is `""`, an int64
left unset is `0`; Python `or` picks the fallback exactly on those falsy
values (lines 184-187). -/
structure KubernetesConfig where
  service_account_name : String
  active_deadline_seconds : Int
deriving DecidableEq, Repr

/-- The executor pod (`self._executor_pod`): the members `_BuildPodManifest`
reads for the owner reference and the service-account fallback. -/
structure ExecutorPod where
  api_version : String
  kind : String
  name : String
  uid : String
  service_account_name : String
deriving DecidableEq, Repr

/-- The `k8s_client.V1Pod` manifest returned by `_BuildPodManifest`
(lines 192-228), flattened to the fields the source sets. -/
structure PodManifest where
  generate_name : String
  labels : List (String × String)
  owner_api_version : String
  owner_kind : String
  owner_name : String
  owner_uid : String
  container_name : String
  image : String
  env : List (String × String)
  service_account_name : String
  restart_policy : String
  active_deadline_seconds : Int
deriving DecidableEq, Repr

/-- An exception raised by `_BuildPodManifest`: the `NotImplementedError` for
an unsupported serving binary (lines 180-182) or the `ValueError` for a
negative active deadline (lines 188-190), carrying the offending value. -/
inductive BuildError
  | notImplemented (typeName : String)
  | valueError (active_deadline_seconds : Int)
deriving DecidableEq, Repr

/-- `_BuildPodManifest` (lines 174-228): env vars from the serving binary
(TensorFlowServing only), service account and active deadline resolved with
Python `or` fallbacks, the deadline validated non-negative, then the
`V1Pod` literal. -/
def _BuildPodManifest (binary : ServingBinary) (config : KubernetesConfig)
    (executor_pod : ExecutorPod) : Except BuildError PodManifest :=
  if binary.kind = "TensorFlowServing" then
    let env_vars := binary.env_vars
    let service_account_name :=
      if config.service_account_name = "" then executor_pod.service_account_name
      else config.service_account_name
    let active_deadline_seconds :=
      if config.active_deadline_seconds = 0 then _DEFAULT_ACTIVE_DEADLINE_SEC
      else config.active_deadline_seconds
    if active_deadline_seconds < 0 then
      .error (.valueError active_deadline_seconds)
    else
      .ok { generate_name := "tfx-infraval-modelserver-"
            labels := [("app", "tfx-infraval-modelserver")]
            owner_api_version := executor_pod.api_version
            owner_kind := executor_pod.kind
            owner_name := executor_pod.name
            owner_uid := executor_pod.uid
            container_name := "model-server"
            image := binary.image
            env := env_vars
            service_account_name := service_account_name
            restart_policy := _POD_CONTAINER_RESTART_POLICY_NEVER
            active_deadline_seconds := active_deadline_seconds }
  else
    .error (.notImplemented binary.kind)

/-- Failure of `Start` (lines 103-114): the `assert not self._pod_name`, an
exception out of `_BuildPodManifest`, or a failed `create_namespaced_pod`
call. -/
inductive StartError
  | alreadyStarted
  | buildError (e : BuildError)
  | createFailed
deriving DecidableEq, Repr

/-- `Start` (lines 103-114).  `create` models
`self._k8s_core_api.create_namespaced_pod`: given the manifest it either
fails or returns the created pod's `metadata.name`.  The second component of
the result counts the creation calls made (so a theorem can state that a
configuration error is raised before any orchestrator call). -/
def Start (s : RunnerState) (binary : ServingBinary)
    (config : KubernetesConfig) (executor_pod : ExecutorPod)
    (create : PodManifest → Except Unit String) :
    Except StartError RunnerState × Nat :=
  if s._pod_name.isSome then (.error .alreadyStarted, 0)
  else
    match _BuildPodManifest binary config executor_pod with
    | .error e => (.error (.buildError e), 0)
    | .ok manifest =>
      match create manifest with
      | .error _ => (.error .createFailed, 1)
      | .ok name => (.ok { s with _pod_name := some name }, 1)

/-- Failure of `WaitUntilRunning` (lines 116-146): the
`assert self._pod_name` precondition, `error_types.JobAborted`, or
`error_types.DeadlineExceeded`. -/
inductive WaitError
  | notStarted
  | jobAborted (phase : String)
  | deadlineExceeded
deriving DecidableEq, Repr

/-- `WaitUntilRunning` (lines 116-146) over the runner state: asserts
`Start` ran, then runs the polling loop from wall-clock time `t`.  Returns
what the Python method communicates (`.ok ()` for a normal return, `.error`
for a raised exception), the runner state after the call (the only field the
method ever writes is `self._endpoint`, on the success path, line 136), and
the number of `read_namespaced_pod` calls made. -/
def WaitUntilRunning (s : RunnerState) (q : Nat → PollResult)
    (container_port : Nat) (t deadline : Nat) :
    Except WaitError Unit × RunnerState × Nat :=
  match s._pod_name with
  | none => (.error .notStarted, s, 0)
  | some _ =>
    match waitLoop q container_port deadline t 0 with
    | (.success endpoint, c) => (.ok (), { s with _endpoint := some endpoint }, c)
    | (.jobAborted phase, c) => (.error (.jobAborted phase), s, c)
    | (.deadlineExceeded, c) => (.error .deadlineExceeded, s, c)

/-- One `delete_namespaced_pod` call as observed by `Stop` (lines 150-162):
either it succeeds or it raises `rest.ApiException` with an HTTP status
(404 = not found). -/
inductive DeleteResult
  | success
  | apiError (status : Nat)
deriving DecidableEq, Repr

/-- How `Stop` returned (it always returns, never raises): after a
successful deletion (line 155), after a 404 "pod does not exist" response
(lines 157-159), or with the warning log after all backoff attempts failed
(lines 164-172). -/
inductive StopOutcome
  | deleted
  | alreadyGone
  | exhausted
deriving DecidableEq, Repr

/-- Modelled from the spec: `time_utils.exponential_backoff` is imported by
`kubernetes_runner.py` but its source is not in the tree.  The spec describes
it as bounded exponential backoff — 5 attempts with strictly increasing
delays.  We model it as a generator that sleeps `backoff_delay i` seconds
(doubling, starting at 1s) between attempt `i` and attempt `i + 1`. -/
def backoff_delay (i : Nat) : Nat := 2 ^ i

/-- The `for _ in time_utils.exponential_backoff(attempts=5)` loop of `Stop`
(lines 149-162).  `delete k` is the observed result of deletion attempt `k`
(0-based); `i` is the current attempt index and `fuel` the attempts left.
Returns how `Stop` returned, the number of `delete_namespaced_pod` calls
made, and the list of backoff sleeps performed (in order). -/
def stopLoop (delete : Nat → DeleteResult) :
    Nat → Nat → StopOutcome × Nat × List Nat
  | _, 0 => (.exhausted, 0, [])
  | i, fuel + 1 =>
    match delete i with
    | .success => (.deleted, 1, [])
    | .apiError status =>
      if status = 404 then (.alreadyGone, 1, [])
      else if fuel = 0 then (.exhausted, 1, [])
      else
        let p := stopLoop delete (i + 1) fuel
        (p.1, p.2.1 + 1, backoff_delay i :: p.2.2)

/-- `Stop` (lines 148-172): up to 5 deletion attempts with exponential
backoff; a 404 or a success returns immediately; exhaustion logs a warning
and returns normally (nothing is raised to the caller in any case — the
return type has no error component). -/
def Stop (delete : Nat → DeleteResult) : StopOutcome × Nat × List Nat :=
  stopLoop delete 0 5

/-- A concrete TensorFlow Serving binary, used to instantiate theorems. -/
def tfsBinary : ServingBinary :=
  { kind := "TensorFlowServing", image := "tensorflow/serving",
    container_port := 8500, env_vars := [("MODEL_NAME", "m")] }

/-- A concrete executor pod, used to instantiate theorems. -/
def sampleExecutor : ExecutorPod :=
  { api_version := "v1", kind := "Pod", name := "executor-pod",
    uid := "uid-1", service_account_name := "sa-default" }

/-- A pod-read behaviour: one API error, then a running pod with an IP. -/
def qRunAt1 : Nat → PollResult :=
  fun j => if j = 0 then .apiError else .ok "Running" "10.0.0.1"

/-- A pod-read behaviour: the pod reports phase `Failed` from the start. -/
def qFail : Nat → PollResult := fun _ => .ok "Failed" ""

/-- A pod-read behaviour: every read raises an API error. -/
def qErr : Nat → PollResult := fun _ => .apiError

/-- A deletion behaviour: every attempt fails with HTTP 500. -/
def deleteErr : Nat → DeleteResult := fun _ => .apiError 500

/-- A deletion behaviour: every attempt reports HTTP 404 (not found). -/
def delete404 : Nat → DeleteResult := fun _ => .apiError 404

/-- A creation behaviour: `create_namespaced_pod` succeeds and the
orchestrator assigns a generated pod name. -/
def createOk : PodManifest → Except Unit String :=
  fun _ => .ok "tfx-infraval-modelserver-abcde"

/-- The polling interval is five seconds. -/
theorem interval_eq : _DEFAULT_POLLING_INTERVAL_SEC = 5 := rfl

/-- If every query before `N` lets the loop continue, the deadline is still
ahead at each of those polls, and query `N` observes a running pod with an
assigned IP, then the loop returns success with `pod_ip:container_port`
after exactly `N + 1` queries. -/
theorem waitAux_success (q : Nat → PollResult) (port d : Nat) :
    ∀ (N fuel t n : Nat), d ≤ t + fuel →
    (∀ k, k < N → continues (q (n + k)) = true) →
    (∀ k, k ≤ N → t + _DEFAULT_POLLING_INTERVAL_SEC * k < d) →
    ∀ ip : String, q (n + N) = .ok _POD_PHASE_RUNNING ip → ip ≠ "" →
    waitAux q port d fuel t n =
      (.success (ip ++ ":" ++ toString port), N + 1) := by
  intro N
  induction N with
  | zero =>
    intro fuel t n hfuel hcont htime ip hq hip
    have ht : t < d := by
      have := htime 0 (Nat.le_refl 0); simpa using this
    obtain ⟨f, rfl⟩ : ∃ f, fuel = f + 1 := ⟨fuel - 1, by omega⟩
    rw [Nat.add_zero] at hq
    simp [waitAux, ht, hq, hip]
  | succ N ih =>
    intro fuel t n hfuel hcont htime ip hq hip
    have ht : t < d := by
      have := htime 0 (Nat.zero_le _); simpa using this
    obtain ⟨f, rfl⟩ : ∃ f, fuel = f + 1 := ⟨fuel - 1, by omega⟩
    have hfuel' : d ≤ (t + _DEFAULT_POLLING_INTERVAL_SEC) + f := by
      rw [interval_eq]; omega
    have hcont' : ∀ k, k < N → continues (q (n + 1 + k)) = true := by
      intro k hk
      have := hcont (k + 1) (by omega)
      rwa [show n + (k + 1) = n + 1 + k by omega] at this
    have htime' : ∀ k, k ≤ N →
        (t + _DEFAULT_POLLING_INTERVAL_SEC) + _DEFAULT_POLLING_INTERVAL_SEC * k < d := by
      intro k hk
      have := htime (k + 1) (by omega)
      rw [interval_eq] at this ⊢; omega
    have hq' : q (n + 1 + N) = .ok _POD_PHASE_RUNNING ip := by
      rwa [show n + 1 + N = n + (N + 1) by omega]
    have hrec := ih f (t + _DEFAULT_POLLING_INTERVAL_SEC) (n + 1)
      hfuel' hcont' htime' ip hq' hip
    have hc0 : continues (q (n + 0)) = true := hcont 0 (Nat.succ_pos N)
    rw [Nat.add_zero] at hc0
    cases hqn : q n with
    | apiError =>
      simp [waitAux, ht, hqn, hrec]
    | ok phase pod_ip =>
      rw [hqn] at hc0
      simp only [continues, decide_eq_true_eq] at hc0
      obtain ⟨hc1, hc2⟩ := hc0
      simp [waitAux, ht, hqn, hc1, hc2, hrec]

/-- If every query before `N` lets the loop continue, the deadline is still
ahead at each of those polls, and query `N` observes a terminal phase
(`Succeeded` or `Failed`), then the loop raises `JobAborted` with that phase
after exactly `N + 1` queries. -/
theorem waitAux_aborted (q : Nat → PollResult) (port d : Nat) :
    ∀ (N fuel t n : Nat), d ≤ t + fuel →
    (∀ k, k < N → continues (q (n + k)) = true) →
    (∀ k, k ≤ N → t + _DEFAULT_POLLING_INTERVAL_SEC * k < d) →
    ∀ phase ip : String, q (n + N) = .ok phase ip →
    (phase = _POD_PHASE_SUCCEEDED ∨ phase = _POD_PHASE_FAILED) →
    waitAux q port d fuel t n = (.jobAborted phase, N + 1) := by
  intro N
  induction N with
  | zero =>
    intro fuel t n hfuel hcont htime phase ip hq hterm
    have ht : t < d := by
      have := htime 0 (Nat.le_refl 0); simpa using this
    obtain ⟨f, rfl⟩ : ∃ f, fuel = f + 1 := ⟨fuel - 1, by omega⟩
    rw [Nat.add_zero] at hq
    have hnotrun : ¬(phase = _POD_PHASE_RUNNING ∧ ip ≠ "") := by
      rcases hterm with h | h <;> subst h <;>
        simp [_POD_PHASE_RUNNING, _POD_PHASE_SUCCEEDED, _POD_PHASE_FAILED]
    simp [waitAux, ht, hq, hnotrun, hterm]
  | succ N ih =>
    intro fuel t n hfuel hcont htime phase ip hq hterm
    have ht : t < d := by
      have := htime 0 (Nat.zero_le _); simpa using this
    obtain ⟨f, rfl⟩ : ∃ f, fuel = f + 1 := ⟨fuel - 1, by omega⟩
    have hfuel' : d ≤ (t + _DEFAULT_POLLING_INTERVAL_SEC) + f := by
      rw [interval_eq]; omega
    have hcont' : ∀ k, k < N → continues (q (n + 1 + k)) = true := by
      intro k hk
      have := hcont (k + 1) (by omega)
      rwa [show n + (k + 1) = n + 1 + k by omega] at this
    have htime' : ∀ k, k ≤ N →
        (t + _DEFAULT_POLLING_INTERVAL_SEC) + _DEFAULT_POLLING_INTERVAL_SEC * k < d := by
      intro k hk
      have := htime (k + 1) (by omega)
      rw [interval_eq] at this ⊢; omega
    have hq' : q (n + 1 + N) = .ok phase ip := by
      rwa [show n + 1 + N = n + (N + 1) by omega]
    have hrec := ih f (t + _DEFAULT_POLLING_INTERVAL_SEC) (n + 1)
      hfuel' hcont' htime' phase ip hq' hterm
    have hc0 : continues (q (n + 0)) = true := hcont 0 (Nat.succ_pos N)
    rw [Nat.add_zero] at hc0
    cases hqn : q n with
    | apiError =>
      simp [waitAux, ht, hqn, hrec]
    | ok phase0 pod_ip0 =>
      rw [hqn] at hc0
      simp only [continues, decide_eq_true_eq] at hc0
      obtain ⟨hc1, hc2⟩ := hc0
      simp [waitAux, ht, hqn, hc1, hc2, hrec]

/-- The loop reports `DeadlineExceeded` only once the wall clock has reached
the deadline: if the result is `DeadlineExceeded` after `c` queries, then
`deadline ≤ t + interval * c`. -/
theorem waitAux_deadline_bound (q : Nat → PollResult) (port d : Nat) :
    ∀ fuel t n, d ≤ t + fuel →
    (waitAux q port d fuel t n).1 = .deadlineExceeded →
    d ≤ t + _DEFAULT_POLLING_INTERVAL_SEC * (waitAux q port d fuel t n).2 := by
  intro fuel
  induction fuel with
  | zero =>
    intro t n hfuel hres
    simp [waitAux]
    omega
  | succ f ih =>
    intro t n hfuel hres
    by_cases ht : t < d
    · cases hqn : q n with
      | apiError =>
        rw [waitAux] at hres ⊢
        rw [if_pos ht] at hres ⊢
        rw [hqn] at hres ⊢
        simp only at hres ⊢
        have hf' : d ≤ (t + _DEFAULT_POLLING_INTERVAL_SEC) + f := by
          rw [interval_eq]; omega
        have := ih (t + _DEFAULT_POLLING_INTERVAL_SEC) (n + 1) hf' hres
        rw [interval_eq] at this ⊢
        omega
      | ok phase pod_ip =>
        by_cases hc1 : phase = _POD_PHASE_RUNNING ∧ pod_ip ≠ ""
        · exfalso
          simp [waitAux, ht, hqn, hc1] at hres
        · by_cases hc2 : phase = _POD_PHASE_SUCCEEDED ∨ phase = _POD_PHASE_FAILED
          · exfalso
            simp [waitAux, ht, hqn, hc1, hc2] at hres
          · have hstep : waitAux q port d (f + 1) t n =
                ((waitAux q port d f (t + _DEFAULT_POLLING_INTERVAL_SEC) (n + 1)).1,
                 (waitAux q port d f (t + _DEFAULT_POLLING_INTERVAL_SEC) (n + 1)).2 + 1) := by
              simp [waitAux, ht, hqn, hc1, hc2]
            rw [hstep] at hres ⊢
            simp only at hres ⊢
            have hf' : d ≤ (t + _DEFAULT_POLLING_INTERVAL_SEC) + f := by
              rw [interval_eq]; omega
            have := ih (t + _DEFAULT_POLLING_INTERVAL_SEC) (n + 1) hf' hres
            rw [interval_eq] at this ⊢
            omega
    · simp [waitAux, ht]
      omega

/-- Any fuel at least `deadline - t` produces the same run: the fuel is an
encoding artifact, the loop is controlled by the deadline check alone. -/
theorem waitAux_fuel_congr (q : Nat → PollResult) (port d : Nat) :
    ∀ fuel₁ fuel₂ t n, d ≤ t + fuel₁ → d ≤ t + fuel₂ →
    waitAux q port d fuel₁ t n = waitAux q port d fuel₂ t n := by
  intro fuel₁
  induction fuel₁ with
  | zero =>
    intro fuel₂ t n h1 h2
    have ht : ¬ t < d := by omega
    cases fuel₂ with
    | zero => rfl
    | succ f2 => simp [waitAux, ht]
  | succ f1 ih =>
    intro fuel₂ t n h1 h2
    by_cases ht : t < d
    · obtain ⟨f2, rfl⟩ : ∃ f, fuel₂ = f + 1 := ⟨fuel₂ - 1, by omega⟩
      have h1' : d ≤ (t + _DEFAULT_POLLING_INTERVAL_SEC) + f1 := by
        rw [interval_eq]; omega
      have h2' : d ≤ (t + _DEFAULT_POLLING_INTERVAL_SEC) + f2 := by
        rw [interval_eq]; omega
      have hrec := ih f2 (t + _DEFAULT_POLLING_INTERVAL_SEC) (n + 1) h1' h2'
      cases hqn : q n with
      | apiError => simp [waitAux, ht, hqn, hrec]
      | ok phase pod_ip =>
        by_cases hc1 : phase = _POD_PHASE_RUNNING ∧ pod_ip ≠ ""
        · simp [waitAux, ht, hqn, hc1]
        · by_cases hc2 : phase = _POD_PHASE_SUCCEEDED ∨ phase = _POD_PHASE_FAILED
          · simp [waitAux, ht, hqn, hc1, hc2]
          · simp [waitAux, ht, hqn, hc1, hc2, hrec]
    · cases fuel₂ with
      | zero => simp [waitAux, ht]
      | succ f2 => simp [waitAux, ht]

/-- If the first `k` deletion attempts fail with a non-404 API error and
attempt `k` reports 404, the deletion loop returns `alreadyGone` after
exactly `k + 1` attempts. -/
theorem stopLoop_not_found (delete : Nat → DeleteResult) :
    ∀ (k i fuel : Nat), k < fuel →
    (∀ j, j < k → ∃ st, delete (i + j) = .apiError st ∧ st ≠ 404) →
    delete (i + k) = .apiError 404 →
    (stopLoop delete i fuel).1 = .alreadyGone ∧
    (stopLoop delete i fuel).2.1 = k + 1 := by
  intro k
  induction k with
  | zero =>
    intro i fuel hk hprev h404
    obtain ⟨f, rfl⟩ : ∃ f, fuel = f + 1 := ⟨fuel - 1, by omega⟩
    rw [Nat.add_zero] at h404
    simp [stopLoop, h404]
  | succ k ih =>
    intro i fuel hk hprev h404
    obtain ⟨f, rfl⟩ : ∃ f, fuel = f + 1 := ⟨fuel - 1, by omega⟩
    obtain ⟨st, hst, hne⟩ := hprev 0 (Nat.succ_pos k)
    rw [Nat.add_zero] at hst
    have hf : k < f := by omega
    have hfne : ¬ f = 0 := by omega
    have hprev' : ∀ j, j < k →
        ∃ st, delete (i + 1 + j) = .apiError st ∧ st ≠ 404 := by
      intro j hj
      have := hprev (j + 1) (by omega)
      rwa [show i + (j + 1) = i + 1 + j by omega] at this
    have h404' : delete (i + 1 + k) = .apiError 404 := by
      rwa [show i + 1 + k = i + (k + 1) by omega]
    have hrec := ih (i + 1) f hf hprev' h404'
    have hstep : stopLoop delete i (f + 1) =
        ((stopLoop delete (i + 1) f).1,
         (stopLoop delete (i + 1) f).2.1 + 1,
         backoff_delay i :: (stopLoop delete (i + 1) f).2.2) := by
      simp [stopLoop, hst, hne, hfne]
    rw [hstep]
    exact ⟨hrec.1, by rw [hrec.2]⟩

/-- Claim C1: for every run of `WaitUntilRunning` in which, before the
deadline, poll `N` returns phase "Running" together with an assigned
(non-empty) pod IP (all earlier polls having let the loop continue),
`WaitUntilRunning` returns success and the runner's resolved endpoint
equals the returned address concatenated with `:` and the serving binary's
configured container port. -/
theorem wait_running_with_ip_resolves_endpoint
    (s : RunnerState) (name : String) (binary : ServingBinary)
    (q : Nat → PollResult) (t deadline N : Nat) (ip : String)
    (hpod : s._pod_name = some name)
    (hcont : ∀ k, k < N → continues (q k) = true)
    (htime : ∀ k, k ≤ N → t + _DEFAULT_POLLING_INTERVAL_SEC * k < deadline)
    (hq : q N = .ok _POD_PHASE_RUNNING ip) (hip : ip ≠ "") :
    WaitUntilRunning s q binary.container_port t deadline =
      (.ok (),
       { s with _endpoint := some (ip ++ ":" ++ toString binary.container_port) },
       N + 1) := by
  have hfuel : deadline ≤ t + (deadline - t) := by omega
  have hcont' : ∀ k, k < N → continues (q (0 + k)) = true := by
    intro k hk; rw [Nat.zero_add]; exact hcont k hk
  have hq' : q (0 + N) = .ok _POD_PHASE_RUNNING ip := by
    rw [Nat.zero_add]; exact hq
  have hloop := waitAux_success q binary.container_port deadline N
    (deadline - t) t 0 hfuel hcont' htime ip hq' hip
  simp [WaitUntilRunning, hpod, waitLoop, hloop]

/-- Witness for C1: with one transient API error followed by a running pod
at IP 10.0.0.1, the runner resolves endpoint `10.0.0.1:8500` after two
polls. -/
theorem wait_running_with_ip_resolves_endpoint_witness :
    (∀ k, k < 1 → continues (qRunAt1 k) = true) ∧
    (∀ k, k ≤ 1 → 0 + _DEFAULT_POLLING_INTERVAL_SEC * k < 60) ∧
    qRunAt1 1 = .ok _POD_PHASE_RUNNING "10.0.0.1" ∧
    WaitUntilRunning ⟨some "pod-0", none⟩ qRunAt1 tfsBinary.container_port 0 60 =
      (.ok (),
       { (⟨some "pod-0", none⟩ : RunnerState) with _endpoint := some ("10.0.0.1" ++ ":" ++ toString tfsBinary.container_port) },
       1 + 1) :=
  ⟨by decide, by decide, by decide,
    wait_running_with_ip_resolves_endpoint ⟨some "pod-0", none⟩ "pod-0"
      tfsBinary qRunAt1 0 60 1 "10.0.0.1" rfl (by decide) (by decide)
      (by decide) (by decide)⟩

/-- Claim C3: if a poll before the deadline returns a terminal phase
(`Succeeded` or `Failed`), `WaitUntilRunning` raises `JobAborted` carrying
that phase, and no further poll is made after that query (exactly `N + 1`
reads happen in total). -/
theorem wait_terminal_phase_aborts_and_stops_polling
    (s : RunnerState) (name : String) (q : Nat → PollResult)
    (container_port t deadline N : Nat) (phase ip : String)
    (hpod : s._pod_name = some name)
    (hcont : ∀ k, k < N → continues (q k) = true)
    (htime : ∀ k, k ≤ N → t + _DEFAULT_POLLING_INTERVAL_SEC * k < deadline)
    (hq : q N = .ok phase ip)
    (hterm : phase = _POD_PHASE_SUCCEEDED ∨ phase = _POD_PHASE_FAILED) :
    WaitUntilRunning s q container_port t deadline =
      (.error (.jobAborted phase), s, N + 1) := by
  have hfuel : deadline ≤ t + (deadline - t) := by omega
  have hcont' : ∀ k, k < N → continues (q (0 + k)) = true := by
    intro k hk; rw [Nat.zero_add]; exact hcont k hk
  have hq' : q (0 + N) = .ok phase ip := by rw [Nat.zero_add]; exact hq
  have hloop := waitAux_aborted q container_port deadline N
    (deadline - t) t 0 hfuel hcont' htime phase ip hq' hterm
  simp [WaitUntilRunning, hpod, waitLoop, hloop]

/-- Witness for C3: a pod reporting phase `Failed` on the very first poll
makes `WaitUntilRunning` fail with `JobAborted "Failed"` after exactly one
read. -/
theorem wait_terminal_phase_aborts_and_stops_polling_witness :
    qFail 0 = .ok "Failed" "" ∧
    ("Failed" = _POD_PHASE_SUCCEEDED ∨ "Failed" = _POD_PHASE_FAILED) ∧
    WaitUntilRunning ⟨some "pod-0", none⟩ qFail 8500 0 60 =
      (.error (.jobAborted "Failed"), (⟨some "pod-0", none⟩ : RunnerState), 0 + 1) :=
  ⟨by decide, by decide,
    wait_terminal_phase_aborts_and_stops_polling ⟨some "pod-0", none⟩ "pod-0"
      qFail 8500 0 60 0 "Failed" "" rfl (by decide) (by decide) (by decide)
      (by decide)⟩

/-- Claim C4: for a started runner, `WaitUntilRunning` with a deadline
already in the past (current time at or beyond the deadline) fails with
`DeadlineExceeded`, performs zero `read_namespaced_pod` calls, and hands
back the runner state unchanged. -/
theorem wait_past_deadline_fails_without_query
    (s : RunnerState) (name : String) (q : Nat → PollResult)
    (container_port t deadline : Nat)
    (hpod : s._pod_name = some name) (hpast : deadline ≤ t) :
    WaitUntilRunning s q container_port t deadline =
      (.error .deadlineExceeded, s, 0) := by
  have h0 : deadline - t = 0 := by omega
  simp [WaitUntilRunning, hpod, waitLoop, h0, waitAux]

/-- Witness for C4: with the clock at 100 and the deadline at 50, the wait
fails immediately with zero reads and the state untouched. -/
theorem wait_past_deadline_fails_without_query_witness :
    (50 : Nat) ≤ 100 ∧
    WaitUntilRunning ⟨some "pod-0", none⟩ qErr 8500 100 50 =
      (.error .deadlineExceeded, (⟨some "pod-0", none⟩ : RunnerState), 0) :=
  ⟨by decide,
    wait_past_deadline_fails_without_query ⟨some "pod-0", none⟩ "pod-0"
      qErr 8500 100 50 rfl (by decide)⟩

/-- Claim C7: an API error on a status query never terminates the wait:
before the deadline, a failing query is followed by the loop continuing at
the next poll interval with the next query (same run, one more read), and
whenever the loop does finish with `DeadlineExceeded` the deadline has
actually passed by then.  The loop's result type (`WaitResult`) has no
constructor propagating the API error itself. -/
theorem wait_api_error_continues_polling
    (q : Nat → PollResult) (container_port deadline t n : Nat)
    (hlt : t < deadline) (herr : q n = .apiError) :
    waitLoop q container_port deadline t n =
      ((waitLoop q container_port deadline
          (t + _DEFAULT_POLLING_INTERVAL_SEC) (n + 1)).1,
       (waitLoop q container_port deadline
          (t + _DEFAULT_POLLING_INTERVAL_SEC) (n + 1)).2 + 1) ∧
    ((waitLoop q container_port deadline t n).1 = .deadlineExceeded →
      deadline ≤ t + _DEFAULT_POLLING_INTERVAL_SEC *
        (waitLoop q container_port deadline t n).2) := by
  constructor
  · obtain ⟨f, hf⟩ : ∃ f, deadline - t = f + 1 := ⟨deadline - t - 1, by omega⟩
    have hstep : waitLoop q container_port deadline t n =
        ((waitAux q container_port deadline f
            (t + _DEFAULT_POLLING_INTERVAL_SEC) (n + 1)).1,
         (waitAux q container_port deadline f
            (t + _DEFAULT_POLLING_INTERVAL_SEC) (n + 1)).2 + 1) := by
      rw [waitLoop, hf]
      simp [waitAux, hlt, herr]
    have hcongr : waitAux q container_port deadline f
        (t + _DEFAULT_POLLING_INTERVAL_SEC) (n + 1) =
        waitAux q container_port deadline
          (deadline - (t + _DEFAULT_POLLING_INTERVAL_SEC))
          (t + _DEFAULT_POLLING_INTERVAL_SEC) (n + 1) := by
      apply waitAux_fuel_congr
      · rw [interval_eq]; omega
      · omega
    rw [hstep, hcongr, waitLoop]
  · intro hres
    rw [waitLoop] at hres ⊢
    exact waitAux_deadline_bound q container_port deadline
      (deadline - t) t n (by omega) hres

/-- Witness for C7: with every read failing, the run starting at time 0
with deadline 7 equals its own continuation at time 5, and its
`DeadlineExceeded` outcome satisfies the deadline bound. -/
theorem wait_api_error_continues_polling_witness :
    (0 : Nat) < 7 ∧ qErr 0 = .apiError ∧
    (waitLoop qErr 8500 7 0 0 =
      ((waitLoop qErr 8500 7 (0 + _DEFAULT_POLLING_INTERVAL_SEC) (0 + 1)).1,
       (waitLoop qErr 8500 7 (0 + _DEFAULT_POLLING_INTERVAL_SEC) (0 + 1)).2 + 1) ∧
     ((waitLoop qErr 8500 7 0 0).1 = .deadlineExceeded →
       7 ≤ 0 + _DEFAULT_POLLING_INTERVAL_SEC * (waitLoop qErr 8500 7 0 0).2)) :=
  ⟨by decide, by decide,
    wait_api_error_continues_polling qErr 8500 7 0 0 (by decide) (by decide)⟩

/-- Claim C2: when every deletion attempt fails with an error other than
"not found" (HTTP 404), `Stop` makes exactly 5 deletion attempts separated
by strictly increasing backoff delays and then returns normally — the
result type of `Stop` has no raising alternative, the exhaustion outcome is
the logged warning.  The backoff delays come from the spec-modelled
`backoff_delay` (the generator itself is not in the source tree). -/
theorem stop_always_erroring_retries_five_then_returns
    (delete : Nat → DeleteResult)
    (h : ∀ i, i < 5 → ∃ st, delete i = .apiError st ∧ st ≠ 404) :
    Stop delete = (.exhausted, 5,
      [backoff_delay 0, backoff_delay 1, backoff_delay 2, backoff_delay 3]) ∧
    List.Chain' (· < ·) (Stop delete).2.2 := by
  obtain ⟨s0, h0, n0⟩ := h 0 (by omega)
  obtain ⟨s1, h1, n1⟩ := h 1 (by omega)
  obtain ⟨s2, h2, n2⟩ := h 2 (by omega)
  obtain ⟨s3, h3, n3⟩ := h 3 (by omega)
  obtain ⟨s4, h4, n4⟩ := h 4 (by omega)
  have hstop : Stop delete = (.exhausted, 5,
      [backoff_delay 0, backoff_delay 1, backoff_delay 2, backoff_delay 3]) := by
    simp [Stop, stopLoop, h0, h1, h2, h3, h4, n0, n1, n2, n3, n4]
  refine ⟨hstop, ?_⟩
  rw [hstop]
  simp [backoff_delay]

/-- Witness for C2: with every deletion attempt failing with HTTP 500,
`Stop` makes 5 attempts with delays 1, 2, 4, 8 and gives up without
raising. -/
theorem stop_always_erroring_retries_five_then_returns_witness :
    (∀ i, i < 5 → ∃ st, deleteErr i = .apiError st ∧ st ≠ 404) ∧
    (Stop deleteErr = (.exhausted, 5,
      [backoff_delay 0, backoff_delay 1, backoff_delay 2, backoff_delay 3]) ∧
     List.Chain' (· < ·) (Stop deleteErr).2.2) :=
  ⟨fun _ _ => ⟨500, rfl, by decide⟩,
    stop_always_erroring_retries_five_then_returns deleteErr
      (fun _ _ => ⟨500, rfl, by decide⟩)⟩

/-- Claim C8: if a deletion attempt inside `Stop` fails with the
orchestrator's "not found" (HTTP 404) response, `Stop` returns success
immediately — attempt `k` reporting 404 (after `k` retryable failures)
makes attempt `k` the last one. -/
theorem stop_not_found_returns_immediately
    (delete : Nat → DeleteResult) (k : Nat) (hk : k < 5)
    (hprev : ∀ j, j < k → ∃ st, delete j = .apiError st ∧ st ≠ 404)
    (h404 : delete k = .apiError 404) :
    (Stop delete).1 = .alreadyGone ∧ (Stop delete).2.1 = k + 1 := by
  have hprev' : ∀ j, j < k → ∃ st, delete (0 + j) = .apiError st ∧ st ≠ 404 := by
    intro j hj; rw [Nat.zero_add]; exact hprev j hj
  have h404' : delete (0 + k) = .apiError 404 := by
    rw [Nat.zero_add]; exact h404
  exact stopLoop_not_found delete k 0 5 hk hprev' h404'

/-- Witness for C8: a 404 on the very first deletion attempt ends `Stop`
after exactly one attempt. -/
theorem stop_not_found_returns_immediately_witness :
    (0 : Nat) < 5 ∧ delete404 0 = .apiError 404 ∧
    ((Stop delete404).1 = .alreadyGone ∧ (Stop delete404).2.1 = 0 + 1) :=
  ⟨by decide, by decide,
    stop_not_found_returns_immediately delete404 0 (by decide)
      (fun j hj => absurd hj (Nat.not_lt_zero j)) (by decide)⟩

/-- Claim C5: a spec whose `active_deadline_seconds` is negative makes
`Start` fail with the `ValueError` raised inside `_BuildPodManifest`,
before any `create_namespaced_pod` call is made (the creation-call count of
the run is 0). -/
theorem start_negative_deadline_fails_before_create
    (s : RunnerState) (binary : ServingBinary) (config : KubernetesConfig)
    (executor_pod : ExecutorPod) (create : PodManifest → Except Unit String)
    (hkind : binary.kind = "TensorFlowServing")
    (hunstarted : s._pod_name = none)
    (hneg : config.active_deadline_seconds < 0) :
    Start s binary config executor_pod create =
      (.error (.buildError (.valueError config.active_deadline_seconds)), 0) := by
  have hne : ¬ config.active_deadline_seconds = 0 := by omega
  simp [Start, hunstarted, _BuildPodManifest, hkind, hne, hneg]

/-- Witness for C5: `active_deadline_seconds = -1` is rejected with zero
creation calls. -/
theorem start_negative_deadline_fails_before_create_witness :
    tfsBinary.kind = "TensorFlowServing" ∧
    ((-1 : Int) < 0) ∧
    Start initState tfsBinary ⟨"", -1⟩ sampleExecutor createOk =
      (.error (.buildError (.valueError (KubernetesConfig.mk "" (-1)).active_deadline_seconds)), 0) :=
  ⟨by decide, by decide,
    start_negative_deadline_fails_before_create initState tfsBinary ⟨"", -1⟩
      sampleExecutor createOk rfl rfl (by decide)⟩

/-- Claim C6: a spec with `active_deadline_seconds` unset (the proto3
default 0) yields a manifest whose hard active deadline is 86400 seconds
(24 hours). -/
theorem manifest_unset_deadline_defaults_86400
    (binary : ServingBinary) (config : KubernetesConfig)
    (executor_pod : ExecutorPod)
    (hkind : binary.kind = "TensorFlowServing")
    (hunset : config.active_deadline_seconds = 0) :
    ∃ m, _BuildPodManifest binary config executor_pod = .ok m ∧
      m.active_deadline_seconds = 86400 := by
  have hge : ¬ _DEFAULT_ACTIVE_DEADLINE_SEC < 0 := by decide
  have heq : _BuildPodManifest binary config executor_pod = .ok
      { generate_name := "tfx-infraval-modelserver-"
        labels := [("app", "tfx-infraval-modelserver")]
        owner_api_version := executor_pod.api_version
        owner_kind := executor_pod.kind
        owner_name := executor_pod.name
        owner_uid := executor_pod.uid
        container_name := "model-server"
        image := binary.image
        env := binary.env_vars
        service_account_name := if config.service_account_name = "" then executor_pod.service_account_name else config.service_account_name
        restart_policy := _POD_CONTAINER_RESTART_POLICY_NEVER
        active_deadline_seconds := _DEFAULT_ACTIVE_DEADLINE_SEC } := by
    simp [_BuildPodManifest, hkind, hunset, hge]
  refine ⟨_, heq, ?_⟩
  rfl

/-- Witness for C6: a config with default fields builds a manifest whose
active deadline is 86400 seconds. -/
theorem manifest_unset_deadline_defaults_86400_witness :
    tfsBinary.kind = "TensorFlowServing" ∧
    (KubernetesConfig.mk "" 0).active_deadline_seconds = 0 ∧
    ∃ m, _BuildPodManifest tfsBinary ⟨"", 0⟩ sampleExecutor = .ok m ∧
      m.active_deadline_seconds = 86400 :=
  ⟨by decide, by decide,
    manifest_unset_deadline_defaults_86400 tfsBinary ⟨"", 0⟩ sampleExecutor
      rfl rfl⟩

/-- Claim C9: `Start` from a freshly constructed runner never populates the
endpoint, so `GetEndpoint` immediately after a successful `Start` (without
`WaitUntilRunning`) fails with the "not ready" precondition error and
returns no string value. -/
theorem start_then_get_endpoint_not_ready
    (binary : ServingBinary) (config : KubernetesConfig)
    (executor_pod : ExecutorPod) (create : PodManifest → Except Unit String)
    (s' : RunnerState) (c : Nat)
    (h : Start initState binary config executor_pod create = (.ok s', c)) :
    GetEndpoint s' = .error .notReady := by
  cases hb : _BuildPodManifest binary config executor_pod with
  | error e => simp [Start, initState, hb] at h
  | ok m =>
    cases hc : create m with
    | error u => simp [Start, initState, hb, hc] at h
    | ok nm =>
      simp [Start, initState, hb, hc, Prod.mk.injEq, Except.ok.injEq] at h
      rw [← h.1]
      simp [GetEndpoint]

/-- Witness for C9: a successful `Start` assigns the pod name but leaves
the endpoint unresolved, so `GetEndpoint` signals "not ready". -/
theorem start_then_get_endpoint_not_ready_witness :
    Start initState tfsBinary ⟨"", 0⟩ sampleExecutor createOk =
      (.ok ⟨some "tfx-infraval-modelserver-abcde", none⟩, 1) ∧
    GetEndpoint ⟨some "tfx-infraval-modelserver-abcde", none⟩ =
      .error .notReady := by
  have hstart : Start initState tfsBinary ⟨"", 0⟩ sampleExecutor createOk =
      (.ok ⟨some "tfx-infraval-modelserver-abcde", none⟩, 1) := by rfl
  exact ⟨hstart, start_then_get_endpoint_not_ready tfsBinary ⟨"", 0⟩
    sampleExecutor createOk ⟨some "tfx-infraval-modelserver-abcde", none⟩ 1 hstart⟩

/-- Claim C10: `active_deadline_seconds` explicitly set to 0 is treated
exactly like an unset value: the built manifest is the same as for a config
carrying the 86400-second default explicitly, the submitted deadline is
86400 (never 0), and the value is not rejected (only strictly negative
resolved values reach the `ValueError` check). -/
theorem manifest_zero_deadline_treated_as_unset
    (binary : ServingBinary) (sa : String) (executor_pod : ExecutorPod)
    (hkind : binary.kind = "TensorFlowServing") :
    _BuildPodManifest binary ⟨sa, 0⟩ executor_pod =
      _BuildPodManifest binary ⟨sa, _DEFAULT_ACTIVE_DEADLINE_SEC⟩ executor_pod ∧
    ∃ m, _BuildPodManifest binary ⟨sa, 0⟩ executor_pod = .ok m ∧
      m.active_deadline_seconds = 86400 := by
  have hge : ¬ _DEFAULT_ACTIVE_DEADLINE_SEC < 0 := by decide
  have hne : ¬ _DEFAULT_ACTIVE_DEADLINE_SEC = 0 := by decide
  constructor
  · simp [_BuildPodManifest, hkind, hge, hne]
  · exact manifest_unset_deadline_defaults_86400 binary ⟨sa, 0⟩ executor_pod
      hkind rfl

/-- Witness for C10: with `active_deadline_seconds = 0`, the manifest holds
the 86400-second default and construction succeeds. -/
theorem manifest_zero_deadline_treated_as_unset_witness :
    tfsBinary.kind = "TensorFlowServing" ∧
    (_BuildPodManifest tfsBinary ⟨"x", 0⟩ sampleExecutor =
      _BuildPodManifest tfsBinary ⟨"x", _DEFAULT_ACTIVE_DEADLINE_SEC⟩ sampleExecutor ∧
     ∃ m, _BuildPodManifest tfsBinary ⟨"x", 0⟩ sampleExecutor = .ok m ∧
       m.active_deadline_seconds = 86400) :=
  ⟨by decide,
    manifest_zero_deadline_treated_as_unset tfsBinary "x" sampleExecutor rfl⟩

end KubernetesRunner
